import Mathlib

/-
  Verification development for the beggar HTTP request client
  (src/request.ts and src/options.ts).

  The TypeScript source is shallowly embedded: option bags become structures
  of Option fields (a missing field is an absent or undefined key), the JS
  object spread becomes a field-wise right-biased merge, exceptions become
  Except, and the asynchronous redirect-following promise chain becomes a
  structurally recursive function over an abstract network oracle
  (URL to response).
-/

namespace Beggar

/-- Decidable equality for Except values, used to evaluate the model on
concrete inputs. -/
instance {ε α : Type} [DecidableEq ε] [DecidableEq α] : DecidableEq (Except ε α) := fun x y =>
  match x, y with
  | .ok a, .ok b =>
    if h : a = b then .isTrue (by rw [h]) else .isFalse (by intro hh; cases hh; exact h rfl)
  | .error a, .error b =>
    if h : a = b then .isTrue (by rw [h]) else .isFalse (by intro hh; cases hh; exact h rfl)
  | .ok _, .error _ => .isFalse (by intro hh; cases hh)
  | .error _, .ok _ => .isFalse (by intro hh; cases hh)

/-- Split a character list at the first occurrence of a separator sequence:
the part before it and the part after it, or none when the separator does
not occur. -/
def splitFirst (sep : List Char) : List Char → Option (List Char × List Char)
  | [] => none
  | c :: cs =>
    if sep.isPrefixOf (c :: cs) then some ([], (c :: cs).drop sep.length)
    else
      match splitFirst sep cs with
      | some (pre, post) => some (c :: pre, post)
      | none => none

/-- Split a character list on every occurrence of a separator character,
matching the JS split semantics used for query strings. -/
def splitChar (sep : Char) : List Char → List (List Char)
  | [] => [[]]
  | c :: rest =>
    let r := splitChar sep rest
    if c == sep then [] :: r
    else
      match r with
      | [] => [[c]]
      | h :: t => (c :: h) :: t

/-- The JS String startsWith method. -/
def jsStartsWith (s pre : String) : Bool :=
  pre.data.isPrefixOf s.data

/-- ASCII lower casing of one character, the fragment of the JS
toLowerCase behavior exercised by the method strings of the source. -/
def asciiLower (c : Char) : Char :=
  if 'A' ≤ c ∧ c ≤ 'Z' then Char.ofNat (c.toNat + 32) else c

/-- ASCII upper casing of one character, the fragment of the JS
toUpperCase behavior exercised by the method strings of the source. -/
def asciiUpper (c : Char) : Char :=
  if 'a' ≤ c ∧ c ≤ 'z' then Char.ofNat (c.toNat - 32) else c

/-- The JS String toLowerCase method on the strings the source lowercases. -/
def jsToLower (s : String) : String :=
  String.mk (s.data.map asciiLower)

/-- The JS String toUpperCase method on the strings the source uppercases. -/
def jsToUpper (s : String) : String :=
  String.mk (s.data.map asciiUpper)

/-- UTF-16 code unit count of a string: the value of the JS String length
property, which the source uses for Content-Length of string bodies. -/
def jsStringLength (s : String) : Nat :=
  s.toList.foldl (fun acc c => acc + (if c.toNat < 0x10000 then 1 else 2)) 0

/-- UTF-8 encoding of one character as a list of byte values. -/
def charUtf8 (c : Char) : List Nat :=
  let n := c.toNat
  if n < 0x80 then [n]
  else if n < 0x800 then [0xC0 + n / 0x40, 0x80 + n % 0x40]
  else if n < 0x10000 then [0xE0 + n / 0x1000, 0x80 + (n / 0x40) % 0x40, 0x80 + n % 0x40]
  else [0xF0 + n / 0x40000, 0x80 + (n / 0x1000) % 0x40, 0x80 + (n / 0x40) % 0x40,
        0x80 + n % 0x40]

/-- UTF-8 bytes of a string, as Node Buffer.from produces for the default
encoding. -/
def utf8Bytes (s : String) : List Nat :=
  (s.toList.map charUtf8).flatten

/-- Number of bytes in the UTF-8 encoding of a string: the byte length that
an HTTP Content-Length header is supposed to carry for a string body. -/
def byteLength (s : String) : Nat :=
  (utf8Bytes s).length

/-- The base64 alphabet character for a 6-bit value. -/
def base64Char (n : Nat) : Char :=
  ("ABCDEFGHIJKLMNOPQRSTUVWXYZabcdefghijklmnopqrstuvwxyz0123456789+/").toList.getD n '='

/-- Standard base64 of a byte list, with padding. -/
def base64EncodeBytes : List Nat → String
  | [] => ""
  | [a] => String.mk [base64Char (a / 4), base64Char (a % 4 * 16), '=', '=']
  | [a, b] => String.mk [base64Char (a / 4), base64Char (a % 4 * 16 + b / 16),
      base64Char (b % 16 * 4), '=']
  | a :: b :: c :: rest =>
    String.mk [base64Char (a / 4), base64Char (a % 4 * 16 + b / 16),
      base64Char (b % 16 * 4 + c / 64), base64Char (c % 64)] ++ base64EncodeBytes rest

/-- Node Buffer.from(s).toString of the base64 encoding: base64 of the UTF-8
bytes of the string. -/
def base64OfString (s : String) : String :=
  base64EncodeBytes (utf8Bytes s)

/-- The parsed-URL value of the node url module, restricted to the components
the source reads and writes. -/
structure URL where
  protocol : String
  hostname : String
  port : String
  pathname : String
  search : String
deriving DecidableEq, Repr

/-- The node URL host accessor: hostname plus an explicit port when present. -/
def URL.host (u : URL) : String :=
  u.hostname ++ (if u.port = "" then "" else ":" ++ u.port)

/-- The node URL origin accessor. -/
def URL.origin (u : URL) : String :=
  u.protocol ++ "//" ++ u.host

/-- Minimal model of the node URL constructor for absolute http and https
URIs: scheme://host[:port][/path][?query]. Returns none where new URL would
throw a TypeError. -/
def parseURL (s : String) : Option URL :=
  match splitFirst [':', '/', '/'] s.data with
  | none => none
  | some (scheme, rest) =>
    if scheme.isEmpty || rest.isEmpty then none
    else
      let hostport := rest.takeWhile (fun c => !(c == '/' || c == '?'))
      let pathrest := rest.dropWhile (fun c => !(c == '/' || c == '?'))
      if hostport.isEmpty then none
      else
        some {
          protocol := String.mk scheme ++ ":",
          hostname := String.mk (hostport.takeWhile (fun c => !(c == ':'))),
          port :=
            (match hostport.dropWhile (fun c => !(c == ':')) with
             | [] => ""
             | _ :: t => String.mk t),
          pathname :=
            (let path := pathrest.takeWhile (fun c => !(c == '?'))
             if path.isEmpty then "/" else String.mk path),
          search := String.mk (pathrest.dropWhile (fun c => !(c == '?'))) }

/-- A header value in the source is string or string list. -/
inductive HVal
  | str (s : String)
  | list (l : List String)
deriving DecidableEq, Repr

/-- Opaque stand-in for tls.ConnectionOptions, which the source only passes
through. -/
structure TlsOpts where
  id : Nat
deriving DecidableEq, Repr

/-- Opaque stand-in for an http Agent value, which the source only passes
through. -/
structure Agent where
  id : Nat
deriving DecidableEq, Repr

/-- The auth option pair. -/
structure AuthPair where
  username : String
  password : String
deriving DecidableEq, Repr

/-- The URI input type of the source: a string or an already parsed URL. -/
inductive URI
  | str (s : String)
  | url (u : URL)
deriving DecidableEq, Repr

/-- The body option. A string, a raw byte buffer, a readable stream with its
object-mode flag, or any other defined value. For the two shapes the source
passes to JSON.stringify, the constructor carries that serialized JSON text
(JSON.stringify is an external collaborator). -/
inductive JsBody
  | str (s : String)
  | buf (bytes : List Nat)
  | stream (objectMode : Bool) (serialized : String)
  | other (serialized : String)
deriving DecidableEq, Repr

/-- The proxy option input: a bare URI (string or URL instance), or an object
with uri, tls, username and password. -/
inductive ProxyInput
  | uri (u : URI)
  | obj (uri : URI) (tlsOpts : Option TlsOpts) (username : Option String)
      (password : Option String)
deriving DecidableEq, Repr

/-- The loose Options input shape of src/options.ts. A none field is an
absent or undefined key. -/
structure Options where
  method : Option String := none
  headers : Option (List (String × HVal)) := none
  uri : Option URI := none
  proxy : Option ProxyInput := none
  maxRedirects : Option Int := none
  followAllRedirects : Option Bool := none
  auth : Option AuthPair := none
  body : Option JsBody := none
  form : Option (List (String × String)) := none
  formData : Option (List (String × String)) := none
  qs : Option (List (String × String)) := none
  query : Option (List (String × String)) := none
  decompress : Option Bool := none
  rejectError : Option Bool := none
  raw : Option Bool := none
  tls : Option TlsOpts := none
  simple : Option Bool := none
  path : Option String := none
  agent : Option Agent := none
deriving DecidableEq, Repr

/-- The sanitized proxy descriptor. -/
structure ProxyOpts where
  uri : URL
  username : Option String := none
  password : Option String := none
  tls : Option TlsOpts := none
deriving DecidableEq, Repr

/-- The canonical RequestOptions descriptor of src/options.ts. maxRedirects
is a non-negative count or the unbounded Infinity sentinel, modelled as
WithTop Nat. -/
structure RequestOptions where
  method : String
  headers : List (String × HVal)
  uri : URL
  proxy : Option ProxyOpts
  maxRedirects : WithTop Nat
  auth : Option AuthPair
  body : Option JsBody
  form : Option (List (String × String))
  formData : Option (List (String × String))
  qs : Option (List (String × String))
  query : Option (List (String × String))
  decompress : Bool
  rejectError : Bool
  raw : Bool
  tls : Option TlsOpts
  simple : Bool
  path : Option String
  agent : Option Agent
deriving DecidableEq

/-- getMaxRedirects of src/options.ts: an explicit numeric maxRedirects is
floored and clamped to non-negative and takes precedence; otherwise
followAllRedirects strictly equal to true yields Infinity; otherwise 0. -/
def getMaxRedirects (o : Options) : WithTop Nat :=
  match o.maxRedirects with
  | some n => ((max n 0).toNat : Nat)
  | none => if o.followAllRedirects = some true then ⊤ else (0 : Nat)

/-- uriToURL of src/options.ts: parse a string with new URL, pass a URL
instance through. The error is where new URL throws. -/
def uriToURL : URI → Except String URL
  | .str s =>
    match parseURL s with
    | some u => .ok u
    | none => .error "Invalid URL"
  | .url u => .ok u

/-- The proxy normalization arm of sanitizeOpts: a bare string or URL becomes
an object holding only the uri; an object keeps uri, tls, username and
password. -/
def sanitizeProxy : Option ProxyInput → Except String (Option ProxyOpts)
  | none => .ok none
  | some (.uri pu) => (uriToURL pu).map fun x => some { uri := x }
  | some (.obj pu ptls pun ppw) =>
    (uriToURL pu).map fun x =>
      some { uri := x, username := pun, password := ppw, tls := ptls }

/-- sanitizeOpts of src/options.ts: fails when uri is undefined, otherwise
builds the canonical descriptor. The string overload of the source is
sanitizeOpts with only the uri field set. Note the returned object literal
of the source omits the agent key, although the RequestOptions type declares
it, so the sanitized agent field is always undefined. -/
def sanitizeOpts (o : Options) : Except String RequestOptions :=
  match o.uri with
  | none => .error "begger: uri must be defined"
  | some u =>
    match uriToURL u with
    | .error e => .error e
    | .ok uri =>
      match sanitizeProxy o.proxy with
      | .error e => .error e
      | .ok proxy =>
        .ok {
          method := if o.method.getD "" = "" then "GET" else o.method.getD "",
          headers := o.headers.getD [],
          uri := uri,
          proxy := proxy,
          maxRedirects := getMaxRedirects o,
          auth := o.auth,
          body := o.body,
          form := o.form,
          formData := o.formData,
          qs := o.qs,
          query := o.query,
          decompress := !(o.decompress == some false),
          rejectError := o.rejectError == some true,
          raw := o.raw == some true,
          tls := o.tls,
          simple := o.simple == some true,
          path := o.path,
          agent := none }

/-- JS object spread of two option bags, later keys overriding earlier ones:
the merge rule of defaults composition and of the two-argument entry point. -/
def mergeSpread (a b : Options) : Options := {
  method := b.method <|> a.method,
  headers := b.headers <|> a.headers,
  uri := b.uri <|> a.uri,
  proxy := b.proxy <|> a.proxy,
  maxRedirects := b.maxRedirects <|> a.maxRedirects,
  followAllRedirects := b.followAllRedirects <|> a.followAllRedirects,
  auth := b.auth <|> a.auth,
  body := b.body <|> a.body,
  form := b.form <|> a.form,
  formData := b.formData <|> a.formData,
  qs := b.qs <|> a.qs,
  query := b.query <|> a.query,
  decompress := b.decompress <|> a.decompress,
  rejectError := b.rejectError <|> a.rejectError,
  raw := b.raw <|> a.raw,
  tls := b.tls <|> a.tls,
  simple := b.simple <|> a.simple,
  path := b.path <|> a.path,
  agent := b.agent <|> a.agent }

/-- JS object spread over an association list: keys of the second list
override matching keys of the first in place, new keys are appended. -/
def spreadAssoc {β : Type} (a b : List (String × β)) : List (String × β) :=
  b.foldl
    (fun acc kv =>
      if (acc.lookup kv.1).isSome then
        acc.map (fun e => if e.1 = kv.1 then kv else e)
      else acc ++ [kv])
    a

/-- Modelled from the spec: query string parsing used by the URL
searchParams accessor, an external collaborator of the core. -/
def qsParse (s : String) : List (String × String) :=
  if s.data.isEmpty then []
  else
    (splitChar '&' s.data).map fun kv =>
      match splitFirst ['='] kv with
      | some (k, v) => (String.mk k, String.mk v)
      | none => (String.mk kv, "")

/-- Object.fromEntries of uri.searchParams: the query pairs already present
on the URI. -/
def searchParamsOf (u : URL) : List (String × String) :=
  if jsStartsWith u.search "?" then qsParse (String.mk (u.search.data.drop 1))
  else qsParse u.search

/-- Modelled from the spec: the qs library stringify, an external pure
encode function (array-aware encoding). -/
def qsStringify (l : List (String × String)) : String :=
  String.intercalate "&" (l.map fun kv => kv.1 ++ "=" ++ kv.2)

/-- Modelled from the spec: node querystring.stringify, an external pure
encode function (flat encoding). -/
def querystringStringify (l : List (String × String)) : String :=
  String.intercalate "&" (l.map fun kv => kv.1 ++ "=" ++ kv.2)

/-- Assignment to the search property of a node URL: a leading question mark
is added for a non-empty query string. -/
def URL.setSearch (u : URL) (s : String) : URL :=
  { u with search := if s = "" then "" else "?" ++ s }

/-- The uri rewriting steps of the entry point after sanitization, acting on
the uri component only: the path override (a truthy path replaces the
pathname), then the qs merge (array-aware key wins) or else the query merge,
each merged over the existing query string of the URI and replacing it. -/
def finalizeUri (o : RequestOptions) : URL :=
  let u1 :=
    match o.path with
    | some p => if p = "" then o.uri else { o.uri with pathname := p }
    | none => o.uri
  match o.qs with
  | some q => URL.setSearch u1 (qsStringify (spreadAssoc (searchParamsOf u1) q))
  | none =>
    match o.query with
    | some q => URL.setSearch u1 (querystringStringify (spreadAssoc (searchParamsOf u1) q))
    | none => u1

/-- The descriptor after the uri rewriting steps: all fields other than the
uri are untouched. -/
def finalizeDescriptor (o : RequestOptions) : RequestOptions :=
  { o with uri := finalizeUri o }

/-- The argument merge at the top of the entry point: a positional URI is
written over the uri field of the option bag; a first-argument object is
spread over the second-argument options. -/
def mergeInput : URI ⊕ Options → Options → Options
  | .inl u, opts => { opts with uri := some u }
  | .inr o, opts => mergeSpread opts o

/-- The request descriptor computed by the entry point: sanitization followed
by the uri rewriting steps. -/
def _requestDescriptor (a : URI ⊕ Options) (b : Options) : Except String RequestOptions :=
  (sanitizeOpts (mergeInput a b)).map finalizeDescriptor

/-- wrapWithDefaults of src/request.ts: a positional URI keeps the defaults
under the per-call options; an object first argument is spread over the
defaults. -/
def wrapWithDefaults (defaults : Options) : URI ⊕ Options → Options → Except String RequestOptions
  | .inl u, opts => _requestDescriptor (.inl u) (mergeSpread defaults opts)
  | .inr o, _ => _requestDescriptor (.inr (mergeSpread defaults o)) {}

/-- The request.defaults entry point factory. -/
def requestDefaults (opts : Options) : URI ⊕ Options → Options → Except String RequestOptions :=
  wrapWithDefaults opts

/-- The request.get verb entry point: wrapWithDefaults with method get
pre-seeded. -/
def requestGet : URI ⊕ Options → Options → Except String RequestOptions :=
  wrapWithDefaults { method := some "get" }

/-- Which of the three terminating side effects of the body encoder runs, or
none of them. -/
inductive BodyCase
  | endNow
  | writeEnd
  | pipe
  | nothing
deriving DecidableEq, Repr

/-- Observable outcome of the body encoder chain on one attempt: the selected
side effect and the headers it set. -/
structure EncodeResult where
  bodyCase : BodyCase
  contentLength : Option Nat := none
  contentType : Option String := none
deriving DecidableEq, Repr

/-- The guard of the first encoder branch: no method (empty after JS
falsiness) or case-insensitive GET. -/
def jsIsGetOrNoMethod (m : String) : Bool :=
  m == "" || jsToLower m == "get"

/-- Modelled from the spec: boundary generation of the form-data library, an
external collaborator. -/
def formBoundary (_fd : List (String × String)) : String :=
  "--------------------------beggarboundary"

/-- The body encoder if-else chain of the entry point (src/request.ts lines
166 to 190), translated branch for branch. String and buffer bodies use the
JS length property for Content-Length; JSON and form payloads likewise use
the length of the produced string. -/
def encodeBody (o : RequestOptions) : EncodeResult :=
  if jsIsGetOrNoMethod o.method then { bodyCase := .endNow }
  else
    match o.body with
    | some (.str s) => { bodyCase := .writeEnd, contentLength := some (jsStringLength s) }
    | some (.buf bs) => { bodyCase := .writeEnd, contentLength := some bs.length }
    | some (.stream false _) => { bodyCase := .pipe }
    | some (.stream true ser) =>
      { bodyCase := .writeEnd, contentLength := some (jsStringLength ser),
        contentType := some "application/json; charset=utf-8" }
    | some (.other ser) =>
      { bodyCase := .writeEnd, contentLength := some (jsStringLength ser),
        contentType := some "application/json; charset=utf-8" }
    | none =>
      match o.form with
      | some f =>
        { bodyCase := .writeEnd, contentLength := some (jsStringLength (qsStringify f)),
          contentType := some "application/x-www-form-urlencoded" }
      | none =>
        match o.formData with
        | some fd =>
          { bodyCase := .pipe,
            contentType := some ("multipart/form-data;boundary=" ++ formBoundary fd) }
        | none => { bodyCase := .nothing }

/-- Modelled from the spec: the default User-Agent string built from the
package version and the platform, an external environment value. -/
def defaultUserAgent : String :=
  "Beggar/1.0.0 (Node.js v14.0.0; linux x64)"

/-- The transport-level request opened by createConnection: uri, uppercased
method, headers spread over a default User-Agent, basic auth string and the
agent option. -/
structure TransportReq where
  uri : URL
  method : String
  headers : List (String × HVal)
  auth : Option String
  agent : Option Agent
deriving DecidableEq

/-- createConnection of src/request.ts, restricted to the transport request
it opens (lines 97 to 104). httpLib throws for a protocol that is neither
http nor https. The tls options spread is carried separately by the
descriptor and omitted here as opaque. -/
def createConnectionReq (o : RequestOptions) : Except String TransportReq :=
  if o.uri.protocol ≠ "http:" ∧ o.uri.protocol ≠ "https:" then .error "protocol not supported"
  else
    .ok {
      uri := o.uri,
      method := if o.method = "" then "" else jsToUpper o.method,
      headers := spreadAssoc [("User-Agent", HVal.str defaultUserAgent)] o.headers,
      auth := o.auth.map fun a => a.username ++ ":" ++ a.password,
      agent := o.agent }

/-- The CONNECT request issued to the proxy by createProxiedConnection. -/
structure ConnectReq where
  host : String
  port : String
  hostHeader : String
  userAgent : HVal
  proxyAuthorization : Option String
  method : String
  path : String
  agentDisabled : Bool
  proxyTls : Option TlsOpts
deriving DecidableEq

/-- JS truthiness of a possibly absent header value: undefined and the empty
string are falsy, arrays are truthy. -/
def jsTruthy : Option HVal → Bool
  | none => false
  | some (.str s) => s != ""
  | some (.list _) => true

/-- createProxiedConnection of src/request.ts, restricted to the CONNECT
request it issues (lines 45 to 72): proxy basic auth when username and
password are both truthy, the CONNECT path target-host colon target-port
with scheme defaults 80 and 443, pooling disabled. -/
def createProxiedConnectReq (o : RequestOptions) : Except String ConnectReq :=
  match o.proxy with
  | none => .error "unreachable"
  | some p =>
    let proxyAuth : Option String :=
      if p.username.getD "" ≠ "" ∧ p.password.getD "" ≠ "" then
        some ("Basic " ++ base64OfString (p.username.getD "" ++ ":" ++ p.password.getD ""))
      else none
    if p.uri.protocol ≠ "http:" ∧ p.uri.protocol ≠ "https:" then .error "protocol not supported"
    else if o.uri.protocol ≠ "http:" ∧ o.uri.protocol ≠ "https:" then
      .error "protocol not supported"
    else
      .ok {
        host := p.uri.hostname,
        port := p.uri.port,
        hostHeader := o.uri.host,
        userAgent :=
          if jsTruthy (o.headers.lookup "user-agent") then
            (o.headers.lookup "user-agent").getD (.str "")
          else .str defaultUserAgent,
        proxyAuthorization := proxyAuth,
        method := "CONNECT",
        path := o.uri.hostname ++ ":" ++
          (if o.uri.port ≠ "" then o.uri.port
           else if o.uri.protocol = "http:" then "80" else "443"),
        agentDisabled := true,
        proxyTls := p.tls }

/-- The connection attempt chosen by the entry point. -/
inductive ConnectorReq
  | direct (t : TransportReq)
  | proxied (c : ConnectReq)
deriving DecidableEq

/-- The synchronous phase of the entry point: descriptor computation, then
connector selection, then the body encoder outcome. An error value means the
call failed before any connection attempt was produced. -/
def _requestConn (a : URI ⊕ Options) (b : Options) :
    Except String (RequestOptions × ConnectorReq × EncodeResult) :=
  match _requestDescriptor a b with
  | .error e => .error e
  | .ok o =>
    match
      (if o.proxy.isSome then (createProxiedConnectReq o).map ConnectorReq.proxied
       else (createConnectionReq o).map ConnectorReq.direct) with
    | .error e => .error e
    | .ok c => .ok (o, c, encodeBody o)

/-- A transport response as seen by the redirect logic: status code and the
Location header. -/
structure Resp where
  statusCode : Nat
  location : Option String
deriving DecidableEq, Repr

/-- The redirect status guard of createConnection: 301 to 303. -/
def isRedirectCode (c : Nat) : Bool :=
  301 ≤ c && c ≤ 303

/-- The qualifiedRedirection computation of createConnection (lines 109 to
111): a root-relative Location is resolved against the origin of the
current URI, a falsy Location defaults to the root path, anything else is
used verbatim. -/
def resolveLocation (origin : String) (location : Option String) : String :=
  match location with
  | some l => if jsStartsWith l "/" then origin ++ l else if l = "" then "/" else l
  | none => "/"

/-- The redirect target string computed from the response at a URL, for a
network oracle assigning each URL its response. -/
def nextHop (net : URL → Resp) (u : URL) : String :=
  resolveLocation u.origin (net u).location

/-- The response promise of createConnection over a network oracle: with
budget left and a 301 to 303 status, resolve the Location, re-issue a
request at it with the budget decremented, and prepend the resolved location
onto the redirect trail of the resolved response; otherwise the response is
terminal and carries no trail. A none trail is the absent redirects
property. -/
def followRedirects (net : URL → Resp) : Nat → URL → Except String (Resp × Option (List String))
  | 0, u => .ok (net u, none)
  | b + 1, u =>
    if isRedirectCode (net u).statusCode then
      match parseURL (nextHop net u) with
      | none => .error "Invalid URL"
      | some u2 =>
        (followRedirects net b u2).map fun r => (r.1, some (nextHop net u :: r.2.getD []))
    else .ok (net u, none)

/-- The redirect target strings in the order they are visited, earliest
first, for as long as redirects are followed under the given budget. -/
def visitedTrail (net : URL → Resp) : Nat → URL → List String
  | 0, _ => []
  | b + 1, u =>
    if isRedirectCode (net u).statusCode then
      match parseURL (nextHop net u) with
      | none => []
      | some u2 => nextHop net u :: visitedTrail net b u2
    else []

/-- The number of redirects actually followed under the given budget. -/
def followCount (net : URL → Resp) : Nat → URL → Nat
  | 0, _ => 0
  | b + 1, u =>
    if isRedirectCode (net u).statusCode then
      match parseURL (nextHop net u) with
      | none => 0
      | some u2 => followCount net b u2 + 1
    else 0

/-- us is a redirect chain from u: every node before the last answers with a
redirect status whose resolved location parses to the next node. -/
def chainB (net : URL → Resp) : URL → List URL → Bool
  | _, [] => true
  | u, v :: vs =>
    isRedirectCode (net u).statusCode && decide (parseURL (nextHop net u) = some v)
      && chainB net v vs

/-- Last node of a nonempty path written as head plus tail. -/
def lastNode : URL → List URL → URL
  | u, [] => u
  | _, v :: vs => lastNode v vs

/-- The redirect target strings along a chain, earliest first. -/
def trailOf (net : URL → Resp) : URL → List URL → List String
  | _, [] => []
  | u, v :: vs => nextHop net u :: trailOf net v vs

/-- The descriptor of the request re-issued on a followed redirect: the
source calls request.get with only the resolved location and a maxRedirects
option, so everything else takes its fresh default. -/
def redirectReissueDescriptor (q : String) (remaining : Int) : Except String RequestOptions :=
  requestGet (.inl (.str q)) { maxRedirects := some remaining }

/-! Concrete fixtures used to evaluate the model. -/

/-- The URL value of the string http://x. -/
def exXURL : URL :=
  { protocol := "http:", hostname := "x", port := "", pathname := "/", search := "" }

/-- A network with two consecutive redirects: the root of a.example answers
301 with a root-relative Location, the next hop answers 302 with an absolute
Location on b.example, everything else answers 200. -/
def exNet : URL → Resp := fun u =>
  if u.hostname == "a.example" && u.pathname == "/" then
    { statusCode := 301, location := some "/one" }
  else if u.pathname == "/one" then
    { statusCode := 302, location := some "http://b.example/two" }
  else { statusCode := 200, location := none }

/-- The starting URL http://a.example/ of the two-redirect fixture. -/
def exURL : URL :=
  { protocol := "http:", hostname := "a.example", port := "", pathname := "/", search := "" }

/-- A network answering every request with 301 and a root-relative Location,
so every budget is exhausted. -/
def exNetAll301 : URL → Resp := fun _ =>
  { statusCode := 301, location := some "/one" }

/-- A network answering every request with 302. -/
def exNetAll302 : URL → Resp := fun _ =>
  { statusCode := 302, location := some "/one" }

/-- The hop URL http://a.example/one. -/
def exOneURL : URL :=
  { protocol := "http:", hostname := "a.example", port := "", pathname := "/one", search := "" }

/-! Helper lemmas. -/

/-- The headers of a sanitized descriptor are the input headers, defaulted to
the empty record. -/
theorem sanitizeOpts_headers {o : Options} {r : RequestOptions}
    (h : sanitizeOpts o = .ok r) : r.headers = o.headers.getD [] := by
  unfold sanitizeOpts at h
  split at h
  · exact Except.noConfusion h
  · split at h
    · exact Except.noConfusion h
    · split at h
      · exact Except.noConfusion h
      · cases h
        rfl

/-! Claim C1. The spec round trip expects both a defaults header and a
per-call header in the resulting descriptor; the object spread of the source
replaces the whole headers record instead. -/

/-- C1 counterexample: request.defaults with header X-A, called on http://x
with header X-B, yields a descriptor in which X-A is absent, contradicting
the claim that both headers are present. -/
theorem defaults_headers_round_trip_cex :
    (requestDefaults { headers := some [("X-A", HVal.str "1")] } (.inl (.str "http://x"))
        { headers := some [("X-B", HVal.str "2")] }).map
        (fun o => (o.headers.lookup "X-A", o.headers.lookup "X-B"))
      = .ok ((none : Option HVal), some (HVal.str "2")) := by decide

/-- C1 amended: the defaults composition is a shallow top-level merge, so the
headers record of the resulting descriptor is the per-call headers record
when one is supplied, and otherwise the defaults headers record; colliding
and non-colliding defaults header keys alike are discarded whenever the
per-call layer supplies any headers record. -/
theorem defaults_headers_shallow_replacement
    (d o : Options) (s : String) (r : RequestOptions)
    (h : requestDefaults d (.inl (.str s)) o = .ok r) :
    r.headers = (o.headers <|> d.headers).getD [] := by
  have h1 : (sanitizeOpts (mergeInput (.inl (.str s)) (mergeSpread d o))).map
      finalizeDescriptor = .ok r := h
  rcases hs : sanitizeOpts (mergeInput (.inl (.str s)) (mergeSpread d o)) with e | r0
  · rw [hs] at h1
    exact Except.noConfusion h1
  · rw [hs] at h1
    simp only [Except.map] at h1
    cases h1
    have h2 := sanitizeOpts_headers hs
    simpa [mergeInput, mergeSpread, finalizeDescriptor] using h2

/-- The descriptor produced by the C1 counterexample input. -/
def exDefaultsDescriptor : RequestOptions := {
  method := "GET", headers := [("X-B", HVal.str "2")], uri := exXURL, proxy := none,
  maxRedirects := (0 : Nat), auth := none, body := none, form := none, formData := none,
  qs := none, query := none, decompress := true, rejectError := false, raw := false,
  tls := none, simple := false, path := none, agent := none }

/-- C1 witness: the amended statement evaluated on the round-trip input of
the spec. -/
theorem defaults_headers_shallow_replacement_witness :
    exDefaultsDescriptor.headers
      = ((some [("X-B", HVal.str "2")] : Option (List (String × HVal)))
          <|> some [("X-A", HVal.str "1")]).getD [] :=
  defaults_headers_shallow_replacement
    { headers := some [("X-A", HVal.str "1")] }
    { headers := some [("X-B", HVal.str "2")] }
    "http://x" exDefaultsDescriptor (by decide)

/-! Claim C8: Location resolution. -/

/-- C8: a root-relative Location is resolved against the origin of the
original URI, a non-empty non-root-relative Location is used verbatim, and
an absent Location defaults to the root path. -/
theorem location_header_resolution (origin l : String) :
    (jsStartsWith l "/" = true → resolveLocation origin (some l) = origin ++ l)
    ∧ (jsStartsWith l "/" = false → l ≠ "" → resolveLocation origin (some l) = l)
    ∧ resolveLocation origin none = "/" := by
  refine ⟨fun h => ?_, fun h hne => ?_, rfl⟩
  · simp [resolveLocation, h]
  · simp [resolveLocation, h, hne]

/-- C8 witness: the two examples of the spec. -/
theorem location_header_resolution_witness :
    resolveLocation "https://a.example" (some "/next") = "https://a.example" ++ "/next"
    ∧ resolveLocation "https://a.example" (some "https://b.example/y")
        = "https://b.example/y" :=
  ⟨(location_header_resolution "https://a.example" "/next").1 (by decide),
   (location_header_resolution "https://a.example" "https://b.example/y").2.1
     (by decide) (by decide)⟩

/-! Claim C9: missing URI fails synchronously before any connection
attempt. -/

/-- C9: with no positional URI and no uri field in either option layer, the
entry point stops with the configuration error, producing neither a
connection attempt nor a body-encoder action. -/
theorem missing_uri_configuration_error (o1 o2 : Options)
    (h1 : o1.uri = none) (h2 : o2.uri = none) :
    _requestConn (.inr o1) o2 = .error "begger: uri must be defined" := by
  have hm : (mergeInput (.inr o1) o2).uri = none := by
    simp [mergeInput, mergeSpread, h1, h2]
  have hd : _requestDescriptor (.inr o1) o2 = .error "begger: uri must be defined" := by
    unfold _requestDescriptor sanitizeOpts
    rw [hm]
    rfl
  unfold _requestConn
  rw [hd]


/-- C9 witness: two empty option bags. -/
theorem missing_uri_configuration_error_witness :
    _requestConn (.inr ({} : Options)) {} = .error "begger: uri must be defined" :=
  missing_uri_configuration_error {} {} rfl rfl

/-! Claim C2. The trail length invariant holds, but the prepends happen as
the nested promises resolve, innermost first, so the attached trail lists
the visited locations in visiting order, earliest first, not most recent
first. -/

/-- C2 counterexample: two redirects, a.example root to /one to
b.example/two. The attached trail is the visiting order list; the most
recent first list differs from it, contradicting the claimed order. -/
theorem redirect_trail_order_cex :
    followRedirects exNet 5 exURL
      = .ok ({ statusCode := 200, location := none },
             some ["http://a.example/one", "http://b.example/two"])
    ∧ followRedirects exNet 5 exURL
        ≠ .ok ({ statusCode := 200, location := none },
               some ["http://b.example/two", "http://a.example/one"]) := by decide

/-- C2 amended: for every terminal response, the attached redirect trail is
the sequence of URIs visited in visiting order, earliest first, its length
is the number of redirects actually followed, and a trail is attached
exactly when at least one redirect was followed. -/
theorem redirect_trail_visit_order
    (net : URL → Resp) (b : Nat) (u : URL) (r : Resp) (t : Option (List String))
    (h : followRedirects net b u = .ok (r, t)) :
    t.getD [] = visitedTrail net b u
    ∧ (t.getD []).length = followCount net b u
    ∧ (t.isSome ↔ 0 < followCount net b u) := by
  induction b generalizing u r t with
  | zero =>
    unfold followRedirects at h
    simp only [Except.ok.injEq, Prod.mk.injEq] at h
    obtain ⟨h1, h2⟩ := h
    subst h2
    simp [visitedTrail, followCount]
  | succ b ih =>
    unfold followRedirects at h
    cases hc : isRedirectCode (net u).statusCode with
    | false =>
      simp only [hc, Bool.false_eq_true, if_false, Except.ok.injEq, Prod.mk.injEq] at h
      obtain ⟨h1, h2⟩ := h
      subst h2
      simp [visitedTrail, followCount, hc]
    | true =>
      simp only [hc, if_true] at h
      cases hp : parseURL (nextHop net u) with
      | none => simp [hp] at h
      | some u2 =>
        simp only [hp] at h
        cases hr : followRedirects net b u2 with
        | error e => simp [hr, Except.map] at h
        | ok p =>
          obtain ⟨r2, t2⟩ := p
          simp only [hr, Except.map, Except.ok.injEq, Prod.mk.injEq] at h
          obtain ⟨h1, h2⟩ := h
          subst h2
          have IH := ih u2 r2 t2 hr
          refine ⟨?_, ?_, ?_⟩
          · simp [visitedTrail, hc, hp, IH.1]
          · simp [followCount, hc, hp, IH.2.1]
          · simp [followCount, hc, hp]

/-- C2 witness: the amended statement evaluated on the two-redirect
fixture. -/
theorem redirect_trail_visit_order_witness :
    (some ["http://a.example/one", "http://b.example/two"] : Option (List String)).getD []
        = visitedTrail exNet 5 exURL
    ∧ ((some ["http://a.example/one", "http://b.example/two"] :
          Option (List String)).getD []).length = followCount exNet 5 exURL
    ∧ ((some ["http://a.example/one", "http://b.example/two"] :
          Option (List String)).isSome ↔ 0 < followCount exNet 5 exURL) :=
  redirect_trail_visit_order exNet 5 exURL { statusCode := 200, location := none }
    (some ["http://a.example/one", "http://b.example/two"]) (by decide)

/-! Claim C3: budget exhaustion semantics. -/

/-- Running the response promise along a redirect chain: the budget equal to
the chain length is spent hop by hop and the response at the last node is
terminal, with the chain trail attached when at least one hop was taken. -/
theorem followRedirects_chainB (net : URL → Resp) :
    ∀ (us : List URL) (u : URL), chainB net u us = true →
      followRedirects net us.length u
        = .ok (net (lastNode u us), if us.isEmpty then none else some (trailOf net u us)) := by
  intro us
  induction us with
  | nil => intro u _; rfl
  | cons v vs ih =>
    intro u hchain
    simp only [chainB, Bool.and_eq_true, decide_eq_true_eq] at hchain
    obtain ⟨⟨h1, h2⟩, h3⟩ := hchain
    show followRedirects net (vs.length + 1) u = _
    unfold followRedirects
    simp only [h1, if_true, h2, ih v h3, Except.map]
    cases vs with
    | nil => simp [lastNode, trailOf]
    | cons w ws => simp [lastNode, trailOf]

/-- The chain trail has one entry per chain node. -/
theorem trailOf_length (net : URL → Resp) :
    ∀ (us : List URL) (u : URL), (trailOf net u us).length = us.length := by
  intro us
  induction us with
  | nil => intro u; rfl
  | cons v vs ih => intro u; simp [trailOf, ih v]

/-- C3: along a chain of N+1 redirect answers with budget N greater than
zero, exactly N redirects are followed (the trail has exactly N entries) and
the response at the last chain node, itself a 3xx, is returned as terminal;
with budget 0, a 302 response is returned as is, with no recursion and no
trail attached. -/
theorem redirect_budget_exhaustion :
    (∀ (net : URL → Resp) (u : URL) (us : List URL),
        us ≠ [] → chainB net u us = true →
        isRedirectCode (net (lastNode u us)).statusCode = true →
        followRedirects net us.length u
          = .ok (net (lastNode u us), some (trailOf net u us))
        ∧ (trailOf net u us).length = us.length)
    ∧ (∀ (net : URL → Resp) (u : URL), (net u).statusCode = 302 →
        followRedirects net 0 u = .ok (net u, none)) := by
  constructor
  · intro net u us hne hchain _hlast
    cases us with
    | nil => exact absurd rfl hne
    | cons v vs =>
      have h := followRedirects_chainB net (v :: vs) u hchain
      simp only [List.isEmpty_cons, if_false] at h
      exact ⟨by simpa using h, trailOf_length net (v :: vs) u⟩
  · intro net u _
    rfl

/-- C3 witness: a constant 301 network exhausts a budget of one, and a 302
response with budget zero is terminal untouched. -/
theorem redirect_budget_exhaustion_witness :
    (followRedirects exNetAll301 1 exURL
        = .ok (exNetAll301 (lastNode exURL [exOneURL]),
               some (trailOf exNetAll301 exURL [exOneURL]))
      ∧ (trailOf exNetAll301 exURL [exOneURL]).length = 1)
    ∧ followRedirects exNetAll302 0 exURL = .ok (exNetAll302 exURL, none) := by
  constructor
  · have h := redirect_budget_exhaustion.1 exNetAll301 exURL [exOneURL]
      (by decide) (by decide) (by decide)
    exact ⟨h.1, h.2⟩
  · exact redirect_budget_exhaustion.2 exNetAll302 exURL (by decide)

/-! Claim C10: the re-issued redirect request is a plain GET with fresh
default options. -/

/-- C10: the request re-issued for a followed redirect carries only the
resolved location and the decremented budget; its descriptor has the get
method, empty headers, and absent auth, body, form, formData, qs, query,
tls, agent and proxy: nothing of the original request is forwarded. -/
theorem redirect_reissue_fresh_defaults (q : String) (u : URL) (N : Nat)
    (hq : parseURL q = some u) (hN : 1 ≤ N) :
    redirectReissueDescriptor q ((N : Int) - 1)
      = .ok { method := "get", headers := [], uri := u, proxy := none,
              maxRedirects := ((N - 1 : Nat) : WithTop Nat), auth := none, body := none,
              form := none, formData := none, qs := none, query := none,
              decompress := true, rejectError := false, raw := false, tls := none,
              simple := false, path := none, agent := none } := by
  have h1 : redirectReissueDescriptor q ((N : Int) - 1)
      = (sanitizeOpts { method := some "get", maxRedirects := some ((N : Int) - 1),
                        uri := some (.str q) }).map finalizeDescriptor := rfl
  have hu : uriToURL (URI.str q) = .ok u := by
    simp only [uriToURL, hq]
  have h2 : (max ((N : Int) - 1) 0).toNat = N - 1 := by omega
  rw [h1]
  simp [sanitizeOpts, hu, sanitizeProxy, getMaxRedirects, Except.map,
    finalizeDescriptor, finalizeUri, h2]

/-- C10 witness: a redirect to http://x with one unit of budget left. -/
theorem redirect_reissue_fresh_defaults_witness :
    redirectReissueDescriptor "http://x" (((1 : Nat) : Int) - 1)
      = .ok { method := "get", headers := [], uri := exXURL, proxy := none,
              maxRedirects := ((1 - 1 : Nat) : WithTop Nat), auth := none, body := none,
              form := none, formData := none, qs := none, query := none,
              decompress := true, rejectError := false, raw := false, tls := none,
              simple := false, path := none, agent := none } :=
  redirect_reissue_fresh_defaults "http://x" exXURL 1 (by decide) (by decide)

/-! Claim C4. The precedence chain and the string-body-wins fact hold, but
a non-GET request with body undefined and form and formData unset takes no
branch at all, so none of the three terminating side effects occurs: the
claimed exactly-one weakens to at-most-one. -/

/-- C4 counterexample: a POST to http://x with no body, form or formData
runs none of the end, write or pipe side effects, contradicting the claim
that exactly one of them occurs on every attempt. -/
theorem body_encoder_zero_actions_cex :
    (sanitizeOpts { uri := some (.str "http://x"), method := some "POST" }).map
        (fun o => (encodeBody o).bodyCase) = .ok BodyCase.nothing
    ∧ BodyCase.nothing ≠ BodyCase.endNow
    ∧ BodyCase.nothing ≠ BodyCase.writeEnd
    ∧ BodyCase.nothing ≠ BodyCase.pipe := by decide

/-- C4 amended: the encoder applies at most one case in the stated
precedence. For a non-GET method, a string body always takes the write-end
branch with its Content-Length, whatever form and formData hold, so a string
body wins over both; and with body undefined and form and formData unset no
branch runs: nothing is written, no Content-Length or Content-Type is set,
and none of the three side effects occurs. -/
theorem body_encoder_precedence (o : RequestOptions)
    (h : jsIsGetOrNoMethod o.method = false) :
    (∀ s, o.body = some (.str s) →
        encodeBody o = { bodyCase := .writeEnd, contentLength := some (jsStringLength s) })
    ∧ (o.body = none → o.form = none → o.formData = none →
        encodeBody o = { bodyCase := .nothing }) := by
  constructor
  · intro s hs
    simp [encodeBody, h, hs]
  · intro h1 h2 h3
    simp [encodeBody, h, h1, h2, h3]

/-- A POST descriptor carrying a string body together with form and formData
records. -/
def exPostStringDescriptor : RequestOptions := {
  method := "POST", headers := [], uri := exXURL, proxy := none, maxRedirects := (0 : Nat),
  auth := none, body := some (.str "hi"), form := some [("a", "b")],
  formData := some [("c", "d")], qs := none, query := none, decompress := true,
  rejectError := false, raw := false, tls := none, simple := false, path := none,
  agent := none }

/-- C4 witness: with form and formData both set, the string body still takes
the write-end branch. -/
theorem body_encoder_precedence_witness :
    encodeBody exPostStringDescriptor
      = { bodyCase := .writeEnd, contentLength := some (jsStringLength "hi") } :=
  (body_encoder_precedence exPostStringDescriptor (by decide)).1 "hi" rfl

/-! Claim C5. The claim is the intent: the source declares agent in its
RequestOptions type, reads options.agent in createConnection, and the spec
enumerates agent among the recognized keys. But the object literal returned
by sanitizeOpts omits the agent key, so a caller-supplied agent never
reaches the transport request. -/

/-- C5: evaluation at the failing input. An options bag carrying an agent is
sanitized to a descriptor whose agent is undefined, and the transport
request opened from it carries no agent either. -/
theorem agent_never_reaches_transport :
    (sanitizeOpts { uri := some (.str "http://x"), agent := some { id := 7 } }).map
        (fun o => o.agent) = .ok none
    ∧ ((sanitizeOpts { uri := some (.str "http://x"), agent := some { id := 7 } }).bind
        createConnectionReq).map (fun t => t.agent) = .ok none := by decide

/-! Claim C6. For a buffer the length property is the byte count, but for a
string it is the UTF-16 code unit count, which differs from the byte count
actually written for any non-Latin character, understating Content-Length. -/

/-- C6: evaluation at the failing input. A POST whose string body is the
euro sign gets Content-Length 1, the UTF-16 length, while the UTF-8 byte
length the claim requires is 3. -/
theorem content_length_not_byte_length :
    (sanitizeOpts { uri := some (.str "http://x"), method := some "POST",
                    body := some (.str "€") }).map (fun o => (encodeBody o).contentLength)
      = .ok (some 1)
    ∧ byteLength "€" = 3 := by decide

/-! Claim C7: CONNECT path and proxy authorization. -/

/-- C7: with a proxy whose username and password are both present (truthy),
the CONNECT request path is target-host colon target-port, the port
defaulting to 80 for a plain and 443 for a secured target scheme, and the
Proxy-Authorization header is the word Basic followed by the base64 of
username colon password. -/
theorem proxy_connect_path_and_auth (o : RequestOptions) (p : ProxyOpts) (un pw : String)
    (hp : o.proxy = some p)
    (hu : p.username = some un) (hun : un ≠ "")
    (hw : p.password = some pw) (hpw : pw ≠ "")
    (hpp : p.uri.protocol = "http:" ∨ p.uri.protocol = "https:")
    (htp : o.uri.protocol = "http:" ∨ o.uri.protocol = "https:") :
    (createProxiedConnectReq o).map (fun c => (c.path, c.proxyAuthorization))
      = .ok (o.uri.hostname ++ ":" ++
              (if o.uri.port ≠ "" then o.uri.port
               else if o.uri.protocol = "http:" then "80" else "443"),
             some ("Basic " ++ base64OfString (un ++ ":" ++ pw))) := by
  have hnp : ¬(p.uri.protocol ≠ "http:" ∧ p.uri.protocol ≠ "https:") := by
    rcases hpp with h | h <;> simp [h]
  have hnt : ¬(o.uri.protocol ≠ "http:" ∧ o.uri.protocol ≠ "https:") := by
    rcases htp with h | h <;> simp [h]
  simp [createProxiedConnectReq, hp, hu, hw, hun, hpw, hnp, hnt, Except.map]

/-- The target URL https://t.example. -/
def exTargetURL : URL :=
  { protocol := "https:", hostname := "t.example", port := "", pathname := "/", search := "" }

/-- The proxy URL http://p.example:8080. -/
def exProxyURL : URL :=
  { protocol := "http:", hostname := "p.example", port := "8080", pathname := "/", search := "" }

/-- The descriptor for the proxy scenario of the spec: target
https://t.example through http://p.example:8080 with credentials. -/
def exProxyDescriptor : RequestOptions := {
  method := "GET", headers := [], uri := exTargetURL,
  proxy := some { uri := exProxyURL, username := some "user", password := some "pass" },
  maxRedirects := (0 : Nat), auth := none, body := none, form := none, formData := none,
  qs := none, query := none, decompress := true, rejectError := false, raw := false,
  tls := none, simple := false, path := none, agent := none }

/-- C7 witness: the proxy scenario of the spec yields CONNECT path
t.example colon 443 and the expected Basic header. -/
theorem proxy_connect_path_and_auth_witness :
    (createProxiedConnectReq exProxyDescriptor).map (fun c => (c.path, c.proxyAuthorization))
      = .ok ("t.example:443", some "Basic dXNlcjpwYXNz") := by
  have h := proxy_connect_path_and_auth exProxyDescriptor
      { uri := exProxyURL, username := some "user", password := some "pass" }
      "user" "pass" rfl rfl (by decide) rfl (by decide) (Or.inl rfl) (Or.inr rfl)
  exact h.trans (by decide)

end Beggar
